import Mathlib

/-!
Verification of the CSV batch processor (`csv_processor`).

This file shallowly embeds the data model (`csv_processor/models.py`) and the
management command (`csv_processor/management/commands/process_csv.py`) in
Lean 4, and settles the frozen claims about the program.

Modelling conventions:
* Django model instances become Lean structures; the storage backend is a
  black box, so "persisting" a record is modelled by the record value
  appearing in the function's result.
* The external HTTP lookup and the SMTP send are black boxes; each row
  carries an environment (`RowEnv`) describing what those collaborators do
  for that row (the HTTP response shape, and whether `send_mail` raises).
* Python exceptions become `Except String` values or explicit outcome
  constructors; `process_single_csv` catches every exception of the row
  loop, so its embedding is a total function and the caught exception is
  reflected in the `ReadOutcome.errorAfter` input case.
* Python `str.strip` is modelled by `strip` below (drop leading and
  trailing whitespace). `csv.DictReader` is modelled in two stages:
  `dictOfRow` builds one row's dictionary, padding a short row with the
  None restval (and `parseCsv` skips blank raw rows, as DictReader
  does); `readDictRows` then performs the loop's zip/email extraction,
  where `.strip()` on a None cell raises a file-level AttributeError.
  Rows that pass extraction are seen by the loop body as string-valued
  association lists (`Row`) with `dictGet` for `row.get(k, d)`.
-/

namespace CsvProcessor

/-- The string-valued view of a parsed CSV row that the loop body reads:
an association list from column name to cell value. -/
abbrev Row := List (String × String)

/-- Model of Python `str.strip()` with no argument: remove leading and
trailing whitespace. -/
def strip (s : String) : String :=
  String.mk (((s.data.dropWhile Char.isWhitespace).reverse.dropWhile
    Char.isWhitespace).reverse)

/-- Model of Python `row.get(key, default)` on a `DictReader` row. -/
def dictGet (row : Row) (key default : String) : String :=
  match row.find? (fun p => p.1 == key) with
  | some p => p.2
  | none => default

/-- Embedding of `CSVProcessingRecord` (models.py): one record per input
file, with row counters and a status string. Defaults mirror the Django
field defaults. -/
structure CSVProcessingRecord where
  filename : String
  total_rows : Nat := 0
  successful_rows : Nat := 0
  failed_rows : Nat := 0
  status : String := "pending"
  deriving Repr, DecidableEq

/-- Embedding of `EmailRecord` (models.py): one record per input row.
`state`, `city` and `error_message` are nullable columns, hence `Option`.
Defaults mirror the Django field defaults. -/
structure EmailRecord where
  email_address : String
  zip_code : String
  state : Option String := none
  city : Option String := none
  success : Bool := false
  error_message : Option String := none
  deriving Repr, DecidableEq

/-- One entry of the `places` list in the ZIP API JSON response; the
fields are optional because the code reads them with `place.get(...)`. -/
structure Place where
  state : Option String := none
  place_name : Option String := none
  deriving Repr, DecidableEq

/-- The JSON body of a well-formed (2xx, valid JSON) ZIP API response:
`places` is `none` when the key is absent. -/
structure ZipResponse where
  places : Option (List Place) := none
  deriving Repr, DecidableEq

/-- Outcome of the HTTP GET in `get_location_from_zip`: either a 2xx
response with a valid JSON body, or a `requests.RequestException`
(non-2xx raised by `raise_for_status`, or a transport failure) carrying
the exception's message. -/
inductive HttpOutcome where
  | ok (data : ZipResponse)
  | requestError (detail : String)
  deriving Repr, DecidableEq

/-- Embedding of `Command.get_location_from_zip`: returns `(state, city)`
on success, or raises (modelled as `Except.error`) the normalized message
built in the `except requests.RequestException` clause. -/
def get_location_from_zip (zip_code : String) (resp : HttpOutcome) :
    Except String (String × String) :=
  match resp with
  | .ok data =>
    match data.places with
    | some (place :: _) =>
      .ok (place.state.getD "Unknown", place.place_name.getD "Unknown")
    | _ => .ok ("Unknown", "Unknown")
  | .requestError detail =>
    .error ("API error for ZIP " ++ zip_code ++ ": " ++ detail)

/-- Per-row behaviour of the two external collaborators: the ZIP API
response for this row's lookup, and whether `send_mail` (called with
`fail_silently=False`) raises, carrying the exception's message. -/
structure RowEnv where
  lookup : HttpOutcome
  sendError : Option String := none
  deriving Repr, DecidableEq

/-- Result of running the body of the row loop for one row: the boolean
the code returns (or the validation verdict), the single `EmailRecord`
persisted for the row, the list of recipients `send_mail` delivered to,
and how many lookup calls were made. -/
structure RowOutcome where
  success : Bool
  record : EmailRecord
  sent : List String
  lookups : Nat
  deriving Repr, DecidableEq

/-- Embedding of `Command.process_row`: call the lookup, then send the
email, then persist a success record; any exception from either call is
caught and turned into a failure record carrying `str(e)`. The function
returns to its caller in every case (the `except` clause swallows the
exception). -/
def process_row (zip_code email : String) (env : RowEnv) : RowOutcome :=
  match get_location_from_zip zip_code env.lookup with
  | .error e =>
    { success := false,
      record := { email_address := email, zip_code := zip_code,
                  success := false, error_message := some e },
      sent := [], lookups := 1 }
  | .ok (state, city) =>
    match env.sendError with
    | some e =>
      { success := false,
        record := { email_address := email, zip_code := zip_code,
                    success := false, error_message := some e },
        sent := [], lookups := 1 }
    | none =>
      { success := true,
        record := { email_address := email, zip_code := zip_code,
                    state := some state, city := some city, success := true },
        sent := [email], lookups := 1 }

/-- Body of the row loop in `Command.process_single_csv`: trim `zip` and
`email`; if either is empty, persist a failure record with
`N/A` substituted for each empty field and make no lookup or send call;
otherwise hand the row to `process_row`. -/
def rowStep (row : Row) (env : RowEnv) : RowOutcome :=
  let zip_code := strip (dictGet row "zip" "")
  let email := strip (dictGet row "email" "")
  if zip_code = "" ∨ email = "" then
    { success := false,
      record := { email_address := if email = "" then "N/A" else email,
                  zip_code := if zip_code = "" then "N/A" else zip_code,
                  success := false,
                  error_message := some "Missing zip code or email" },
      sent := [], lookups := 0 }
  else
    process_row zip_code email env

/-- Accumulated effect of the row loop over a list of rows: the three
counters, the persisted `EmailRecord`s in creation order, the recipients
of all sent messages, and the number of lookup calls. -/
structure LoopResult where
  total : Nat
  succ : Nat
  failed : Nat
  recs : List EmailRecord
  sent : List String
  lookups : Nat
  deriving Repr, DecidableEq

/-- The row loop of `Command.process_single_csv`, run over the rows the
reader yields, in file order. -/
def processRows : List (Row × RowEnv) → LoopResult
  | [] => { total := 0, succ := 0, failed := 0, recs := [], sent := [], lookups := 0 }
  | (row, env) :: rest =>
    let o := rowStep row env
    let r := processRows rest
    { total := 1 + r.total,
      succ := (if o.success then 1 else 0) + r.succ,
      failed := (if o.success then 0 else 1) + r.failed,
      recs := o.record :: r.recs,
      sent := o.sent ++ r.sent,
      lookups := o.lookups + r.lookups }

/-- What reading and iterating one CSV file does: either the reader
yields all rows and the loop finishes, or an exception interrupts the
iteration after some prefix of rows was processed, carrying the
exception's message. -/
inductive ReadOutcome where
  | ok (rows : List (Row × RowEnv))
  | errorAfter (rows : List (Row × RowEnv)) (msg : String)
  deriving Repr, DecidableEq

/-- An input CSV file: its name split as `Path.stem` and `Path.suffix`,
and what reading it yields. -/
structure InputFile where
  stem : String
  ext : String
  read : ReadOutcome
  deriving Repr, DecidableEq

/-- Everything `Command.process_single_csv` leaves behind for one file:
the persisted `CSVProcessingRecord`, the persisted `EmailRecord`s, the
recipients of sent messages, the lookup-call count, whether the file was
moved to the processed directory, and whether an exception escaped to
the caller. -/
structure FileResult where
  record : CSVProcessingRecord
  rowRecords : List EmailRecord
  sent : List String
  lookups : Nat
  moved : Bool
  raised : Bool
  deriving Repr, DecidableEq

/-- Embedding of `Command.process_single_csv`. A record is created with
status `processing` and the counters at their defaults; when the row
loop completes, the counters and status `completed` are saved and the
file is moved; when an exception interrupts reading or iteration, the
`except` clause saves only status `failed` (the counters keep their
creation-time value 0), does not move the file, and does not re-raise. -/
def process_single_csv (f : InputFile) : FileResult :=
  let filename := f.stem ++ f.ext
  match f.read with
  | .ok rows =>
    let r := processRows rows
    { record := { filename := filename, total_rows := r.total,
                  successful_rows := r.succ, failed_rows := r.failed,
                  status := "completed" },
      rowRecords := r.recs, sent := r.sent, lookups := r.lookups,
      moved := true, raised := false }
  | .errorAfter rows _ =>
    let r := processRows rows
    { record := { filename := filename, status := "failed" },
      rowRecords := r.recs, sent := r.sent, lookups := r.lookups,
      moved := false, raised := false }

/-- Embedding of `Command.process_csv_files`: each discovered file is
processed independently by `process_single_csv`; nothing a file does can
affect the others (the per-file failure boundary is inside
`process_single_csv`). -/
def process_csv_files (files : List InputFile) : List FileResult :=
  files.map process_single_csv

/-- A wall-clock instant as used by `datetime.now().strftime(...)`. -/
structure DateTime where
  year : Nat
  month : Nat
  day : Nat
  hour : Nat
  minute : Nat
  second : Nat
  deriving Repr, DecidableEq

/-- Zero-padded two-digit decimal rendering, as `strftime` does for
`%m %d %H %M %S` (faithful for values below 100, which the calendar
guarantees). -/
def pad2 (n : Nat) : String :=
  String.mk [Nat.digitChar (n / 10 % 10), Nat.digitChar (n % 10)]

/-- Zero-padded four-digit decimal rendering, as `strftime` does for
`%Y` (faithful for years below 10000). -/
def pad4 (n : Nat) : String :=
  String.mk [Nat.digitChar (n / 1000 % 10), Nat.digitChar (n / 100 % 10),
             Nat.digitChar (n / 10 % 10), Nat.digitChar (n % 10)]

/-- Embedding of `datetime.now().strftime('%Y%m%d_%H%M%S')`. -/
def strftimeTimestamp (t : DateTime) : String :=
  pad4 t.year ++ pad2 t.month ++ pad2 t.day ++ "_" ++
    pad2 t.hour ++ pad2 t.minute ++ pad2 t.second

/-- The two directories the mover touches, as lists of file names. -/
structure Dirs where
  incoming : List String
  processed : List String
  deriving Repr, DecidableEq

/-- Embedding of `Command.move_to_processed`: build
`<stem>_<timestamp><ext>` and `shutil.move` the source file there (the
source entry disappears from the incoming directory, the new name
appears in the processed directory). -/
def move_to_processed (stem ext : String) (t : DateTime) (d : Dirs) : Dirs :=
  let new_filename := stem ++ "_" ++ strftimeTimestamp t ++ ext
  { incoming := d.incoming.erase (stem ++ ext),
    processed := d.processed ++ [new_filename] }

/-- Decides whether `ts` has the shape `YYYYMMDD_HHMMSS`: fifteen
characters, all decimal digits except an underscore at index 8. -/
def isTimestampShape (ts : String) : Bool :=
  ts.toList.length = 15 &&
  (ts.toList.take 8).all Char.isDigit &&
  ts.toList.get? 8 == some '_' &&
  (ts.toList.drop 9).all Char.isDigit

/-- A row passes the validation step when both trimmed fields are
non-empty. -/
def validRow (row : Row) : Bool :=
  !(strip (dictGet row "zip" "") == "") && !(strip (dictGet row "email" "") == "")

/-- The `DictReader` dictionary for one raw data row: every header
column is paired with its cell when the row reaches that far, and with
the restval, Python None (`Option.none` here), when the row is short.
The list is reversed so that a lookup of the first matching key sees
the latest binding, as Python dict construction does; cells beyond the
header go under the restkey, which the loop never reads, so they are
dropped. -/
def dictOfRow (header : List String) (values : List String) :
    List (String × Option String) :=
  (header.zip
    (values.map some ++ List.replicate (header.length - values.length) none)).reverse

/-- Model of `row.get(key, '')` on a `DictReader` dictionary: the
default is the empty string when the key is absent, while a key that is
present can be mapped to the None restval. -/
def dictGetOpt (row : List (String × Option String)) (key : String) :
    Option String :=
  match row.find? (fun p => p.1 == key) with
  | some p => p.2
  | none => some ""

/-- Whether the two extractions of the loop body,
`row.get('zip', '').strip()` and `row.get('email', '').strip()`, both
operate on actual strings; calling `.strip()` on a None cell raises
AttributeError, a file-level exception. -/
def stripsOk (row : List (String × Option String)) : Bool :=
  (dictGetOpt row "zip").isSome && (dictGetOpt row "email").isSome

/-- The string-valued view of a `DictReader` dictionary handed to the
loop body once extraction succeeded: None cells are dropped, which is
harmless because the loop reads only the zip and email cells and
`stripsOk` guarantees those are strings. -/
def toRow (row : List (String × Option String)) : Row :=
  row.filterMap (fun c => c.2.map (fun v => (c.1, v)))

/-- Iterating the `DictReader` dictionaries inside the per-file try
block: each row whose zip and email cells are strings is handed to the
loop body; at the first row with a None cell in either, `.strip()`
raises AttributeError, ending the file after the rows already
processed. -/
def readDictRows :
    List (List (String × Option String) × RowEnv) → ReadOutcome
  | [] => .ok []
  | (row, env) :: rest =>
    if stripsOk row then
      match readDictRows rest with
      | .ok rows => .ok ((toRow row, env) :: rows)
      | .errorAfter rows msg => .errorAfter ((toRow row, env) :: rows) msg
    else
      .errorAfter [] "AttributeError: NoneType has no attribute strip"

/-- Embedding of `csv.DictReader` feeding the row loop: blank raw rows
are skipped (DictReader consumes them before building a dictionary) and
the remaining rows become dictionaries padded with the None restval. -/
def parseCsv (header : List String) (rowData : List (List String × RowEnv)) :
    ReadOutcome :=
  readDictRows ((rowData.filter fun p => !p.1.isEmpty).map
    fun p => (dictOfRow header p.1, p.2))

/-! Concrete inputs used to exercise the embedding. -/

/-- A lookup response with one place entry, as in the repository's test
suite. -/
def scenarioData : ZipResponse :=
  { places := some [{ state := some "California", place_name := some "Beverly Hills" }] }

/-- Collaborator behaviour where the lookup succeeds with
`scenarioData` and `send_mail` does not raise. -/
def scenarioEnv : RowEnv := { lookup := .ok scenarioData }

/-- Collaborator behaviour where the lookup request fails. -/
def failEnv : RowEnv := { lookup := .requestError "connection timed out" }

/-- A data row with both fields present. -/
def validRow90210 : Row := [("zip", "90210"), ("email", "a@x.com")]

/-- A data row with an empty zip. -/
def missingZipRow : Row := [("zip", ""), ("email", "b@x.com")]

/-- A data row with an empty email. -/
def missingEmailRow : Row := [("zip", "10001"), ("email", "")]

/-- The spec section 8 scenario: one valid row, one missing zip, one
missing email. -/
def scenarioRows : List (Row × RowEnv) :=
  [(validRow90210, scenarioEnv), (missingZipRow, scenarioEnv),
   (missingEmailRow, scenarioEnv)]

/-- A file whose reader yields the scenario rows and finishes. -/
def scenarioFile : InputFile :=
  { stem := "input", ext := ".csv", read := .ok scenarioRows }

/-- A file whose iteration raises after one row was processed. -/
def failingFile : InputFile :=
  { stem := "broken", ext := ".csv",
    read := .errorAfter [(validRow90210, scenarioEnv)] "invalid byte in line 3" }

/-- One scan pass over a directory holding a failing and a healthy file. -/
def scenarioFiles : List InputFile := [failingFile, scenarioFile]

/-- Raw data rows for a file whose header lacks the `zip` column. -/
def noZipHeaderRows : List (List String × RowEnv) :=
  [(["Alice", "a@x.com"], scenarioEnv)]

/-- A file parsed under the header `name,email`: no `zip` column. -/
def noZipHeaderFile : InputFile :=
  { stem := "people", ext := ".csv",
    read := parseCsv ["name", "email"] noZipHeaderRows }

/-- A file whose header lacks `zip` and whose single data row is short:
DictReader fills its `email` cell with the None restval, so the loop's
extraction raises. -/
def shortRowFile : InputFile :=
  { stem := "people2", ext := ".csv",
    read := parseCsv ["name", "email"] [(["Alice"], scenarioEnv)] }

end CsvProcessor

namespace CsvProcessor

/-! Helper lemmas about the row loop. -/

theorem rowStep_invalid (row : Row) (env : RowEnv)
    (h : strip (dictGet row "zip" "") = "" ∨ strip (dictGet row "email" "") = "") :
    rowStep row env =
      { success := false,
        record := { email_address :=
                      if strip (dictGet row "email" "") = "" then "N/A"
                      else strip (dictGet row "email" ""),
                    zip_code :=
                      if strip (dictGet row "zip" "") = "" then "N/A"
                      else strip (dictGet row "zip" ""),
                    success := false,
                    error_message := some "Missing zip code or email" },
        sent := [], lookups := 0 } := by
  unfold rowStep
  simp only [if_pos h]

theorem rowStep_valid (row : Row) (env : RowEnv)
    (h1 : strip (dictGet row "zip" "") ≠ "")
    (h2 : strip (dictGet row "email" "") ≠ "") :
    rowStep row env =
      process_row (strip (dictGet row "zip" "")) (strip (dictGet row "email" "")) env := by
  unfold rowStep
  simp only [if_neg (not_or.mpr ⟨h1, h2⟩)]

theorem validRow_false_iff (row : Row) :
    validRow row = false ↔
      (strip (dictGet row "zip" "") = "" ∨ strip (dictGet row "email" "") = "") := by
  simp [validRow, Bool.and_eq_false_iff]
  tauto

theorem rowStep_success_of_invalid (row : Row) (env : RowEnv)
    (h : validRow row = false) : (rowStep row env).success = false := by
  rw [rowStep_invalid row env ((validRow_false_iff row).mp h)]

theorem processRows_total (rows : List (Row × RowEnv)) :
    (processRows rows).total = rows.length := by
  induction rows with
  | nil => rfl
  | cons p rest ih =>
    obtain ⟨row, env⟩ := p
    simp [processRows, ih]
    omega

theorem processRows_succ_add_failed (rows : List (Row × RowEnv)) :
    (processRows rows).succ + (processRows rows).failed = rows.length := by
  induction rows with
  | nil => rfl
  | cons p rest ih =>
    obtain ⟨row, env⟩ := p
    simp only [processRows, List.length_cons]
    cases (rowStep row env).success <;> simp <;> omega

theorem processRows_recs_length (rows : List (Row × RowEnv)) :
    (processRows rows).recs.length = rows.length := by
  induction rows with
  | nil => rfl
  | cons p rest ih =>
    obtain ⟨row, env⟩ := p
    simp [processRows, ih]

theorem processRows_succ_le (rows : List (Row × RowEnv)) :
    (processRows rows).succ ≤ rows.countP (fun p => validRow p.1) := by
  induction rows with
  | nil => exact Nat.le_refl 0
  | cons p rest ih =>
    obtain ⟨row, env⟩ := p
    simp only [processRows, List.countP_cons]
    by_cases hv : validRow row = true
    · simp only [hv, if_pos]
      cases (rowStep row env).success <;> simp <;> omega
    · have hfalse : validRow row = false := by
        cases hb : validRow row
        · rfl
        · exact absurd hb hv
      rw [rowStep_success_of_invalid row env hfalse]
      simp [hfalse]
      omega

theorem processRows_recs_mem (rows : List (Row × RowEnv)) :
    ∀ r ∈ (processRows rows).recs, ∃ p ∈ rows, r = (rowStep p.1 p.2).record := by
  induction rows with
  | nil => intro r hr; exact absurd hr (List.not_mem_nil r)
  | cons p rest ih =>
    obtain ⟨row, env⟩ := p
    intro r hr
    simp only [processRows, List.mem_cons] at hr
    rcases hr with hr | hr
    · exact ⟨(row, env), List.mem_cons_self _ _, hr⟩
    · obtain ⟨q, hq, hrq⟩ := ih r hr
      exact ⟨q, List.mem_cons_of_mem _ hq, hrq⟩

theorem processRows_all_invalid (rows : List (Row × RowEnv))
    (h : ∀ p ∈ rows,
      strip (dictGet p.1 "zip" "") = "" ∨ strip (dictGet p.1 "email" "") = "") :
    (processRows rows).succ = 0 ∧
    (processRows rows).failed = rows.length ∧
    (processRows rows).lookups = 0 ∧
    (processRows rows).sent = [] := by
  induction rows with
  | nil => exact ⟨rfl, rfl, rfl, rfl⟩
  | cons p rest ih =>
    obtain ⟨row, env⟩ := p
    have hp := h (row, env) (List.mem_cons_self _ _)
    have hrest := ih (fun q hq => h q (List.mem_cons_of_mem _ hq))
    simp only [processRows, rowStep_invalid row env hp, List.length_cons]
    obtain ⟨h1, h2, h3, h4⟩ := hrest
    refine ⟨by simp [h1], by simp [h2]; omega, by simp [h3], by simp [h4]⟩

theorem get_location_ok (zip_code : String) (data : ZipResponse) :
    ∃ st ct, get_location_from_zip zip_code (.ok data) = .ok (st, ct) := by
  cases hp : data.places with
  | none => exact ⟨"Unknown", "Unknown", by simp [get_location_from_zip, hp]⟩
  | some l =>
    cases l with
    | nil => exact ⟨"Unknown", "Unknown", by simp [get_location_from_zip, hp]⟩
    | cons place rest =>
      exact ⟨place.state.getD "Unknown", place.place_name.getD "Unknown",
        by simp [get_location_from_zip, hp]⟩

theorem process_row_success (zip_code email : String) (env : RowEnv)
    (data : ZipResponse) (hl : env.lookup = .ok data) (hs : env.sendError = none) :
    ∃ st ct, process_row zip_code email env =
      { success := true,
        record := { email_address := email, zip_code := zip_code,
                    state := some st, city := some ct, success := true },
        sent := [email], lookups := 1 } := by
  obtain ⟨st, ct, h⟩ := get_location_ok zip_code data
  exact ⟨st, ct, by simp [process_row, hl, h, hs]⟩

theorem dictOfRow_key_mem_header (header vals : List String)
    (c : String × Option String) (hc : c ∈ dictOfRow header vals) :
    c.1 ∈ header := by
  unfold dictOfRow at hc
  rw [List.mem_reverse] at hc
  exact (List.of_mem_zip hc).1

theorem dictGet_toRow_not_mem (row : List (String × Option String))
    (key d : String) (h : ∀ c ∈ row, c.1 ≠ key) :
    dictGet (toRow row) key d = d := by
  unfold dictGet
  have hfind : (toRow row).find? (fun p => p.1 == key) = none := by
    rw [List.find?_eq_none]
    intro p hp
    simp only [toRow, List.mem_filterMap] at hp
    obtain ⟨c, hc, hmap⟩ := hp
    cases hv : c.2 with
    | none => rw [hv] at hmap; simp at hmap
    | some v =>
      rw [hv] at hmap
      simp only [Option.map] at hmap
      cases hmap
      simp only [beq_iff_eq]
      exact h c hc
  rw [hfind]

theorem dictGet_parsed_not_mem (header vals : List String) (key d : String)
    (h : key ∉ header) : dictGet (toRow (dictOfRow header vals)) key d = d := by
  apply dictGet_toRow_not_mem
  intro c hc hq
  exact h (hq ▸ dictOfRow_key_mem_header header vals c hc)

theorem readDictRows_ok (rows : List (List (String × Option String) × RowEnv))
    (h : ∀ p ∈ rows, stripsOk p.1 = true) :
    readDictRows rows = .ok (rows.map fun p => (toRow p.1, p.2)) := by
  induction rows with
  | nil => rfl
  | cons p rest ih =>
    obtain ⟨row, env⟩ := p
    have hp := h (row, env) (List.mem_cons_self _ _)
    have hrest := ih (fun q hq => h q (List.mem_cons_of_mem _ hq))
    simp only [readDictRows, if_pos hp, hrest, List.map_cons]

/-! Theorems settling the frozen claims. -/

/-- C4: a well-formed lookup response with zero place entries (the
`places` key absent, or present and empty) yields
`("Unknown", "Unknown")` as a success, not an error. -/
theorem lookup_empty_result_is_unknown_success (zip_code : String)
    (data : ZipResponse) (h : data.places = none ∨ data.places = some []) :
    get_location_from_zip zip_code (.ok data) = .ok ("Unknown", "Unknown") := by
  rcases h with h | h <;> simp [get_location_from_zip, h]

/-- Witness for C4: concrete evaluation at ZIP 90210 with an empty
`places` list. -/
theorem lookup_empty_result_is_unknown_success_witness :
    ((ZipResponse.mk (some [])).places = none ∨
      (ZipResponse.mk (some [])).places = some []) ∧
    get_location_from_zip "90210" (.ok (ZipResponse.mk (some []))) =
      .ok ("Unknown", "Unknown") :=
  ⟨Or.inr rfl,
    lookup_empty_result_is_unknown_success "90210" (ZipResponse.mk (some []))
      (Or.inr rfl)⟩

/-- C5: a non-2xx status or transport failure makes the lookup raise a
single normalized failure embedding the cause's message, in the form
`API error for ZIP <code>: <detail>`. -/
theorem lookup_request_failure_normalized (zip_code detail : String) :
    get_location_from_zip zip_code (.requestError detail) =
      .error ("API error for ZIP " ++ zip_code ++ ": " ++ detail) := rfl


/-- C1: for every file whose processing completes without a file-level
exception (the reader yields all N rows and the loop finishes), with M
rows passing the zip/email presence check, the persisted record has
total_rows = N, successful_rows + failed_rows = N, and
failed_rows >= N - M. -/
theorem completed_file_counts (f : InputFile) (rows : List (Row × RowEnv))
    (h : f.read = .ok rows) :
    (process_single_csv f).record.total_rows = rows.length ∧
    (process_single_csv f).record.successful_rows +
      (process_single_csv f).record.failed_rows = rows.length ∧
    rows.length - rows.countP (fun p => validRow p.1) ≤
      (process_single_csv f).record.failed_rows := by
  obtain ⟨stem, ext, read⟩ := f
  simp only at h
  subst h
  simp only [process_single_csv]
  refine ⟨processRows_total rows, processRows_succ_add_failed rows, ?_⟩
  have h1 := processRows_succ_add_failed rows
  have h2 := processRows_succ_le rows
  have h3 : (rows.countP fun p => validRow p.1) ≤ rows.length :=
    List.countP_le_length _
  omega

/-- Witness for C1: the spec scenario file (one valid row, one missing
zip, one missing email) has total_rows = 3, successful + failed = 3 and
failed >= 3 - 1. -/
theorem completed_file_counts_witness :
    scenarioFile.read = .ok scenarioRows ∧
    ((process_single_csv scenarioFile).record.total_rows = scenarioRows.length ∧
     (process_single_csv scenarioFile).record.successful_rows +
       (process_single_csv scenarioFile).record.failed_rows = scenarioRows.length ∧
     scenarioRows.length - scenarioRows.countP (fun p => validRow p.1) ≤
       (process_single_csv scenarioFile).record.failed_rows) :=
  ⟨rfl, completed_file_counts scenarioFile scenarioRows rfl⟩

/-- C2 as frozen is false: for a `failed` (terminal) record the code
saves only the status, so the counters keep their creation value 0 while
the `EmailRecord`s persisted before the exception remain; at this input
one RowRecord exists but total_rows = 0. -/
theorem terminal_status_rowcount_counterexample :
    ((process_single_csv failingFile).record.status = "completed" ∨
     (process_single_csv failingFile).record.status = "failed") ∧
    (process_single_csv failingFile).rowRecords.length ≠
      (process_single_csv failingFile).record.total_rows := by
  refine ⟨Or.inr rfl, ?_⟩
  decide

/-- C2 amended: for every record with a terminal status,
total_rows = successful_rows + failed_rows; the RowRecord count equals
total_rows when the status is completed (for a failed record the
counters keep their creation value 0 while the RowRecords persisted
before the exception remain). -/
theorem terminal_counts_invariant (f : InputFile)
    (h : (process_single_csv f).record.status = "completed" ∨
      (process_single_csv f).record.status = "failed") :
    (process_single_csv f).record.total_rows =
      (process_single_csv f).record.successful_rows +
        (process_single_csv f).record.failed_rows ∧
    ((process_single_csv f).record.status = "completed" →
      (process_single_csv f).rowRecords.length =
        (process_single_csv f).record.total_rows) := by
  clear h
  obtain ⟨stem, ext, read⟩ := f
  cases read with
  | ok rows =>
    simp only [process_single_csv]
    refine ⟨?_, fun _ => ?_⟩
    · have h1 := processRows_total rows
      have h2 := processRows_succ_add_failed rows
      omega
    · rw [processRows_recs_length rows, processRows_total rows]
  | errorAfter rows msg =>
    simp only [process_single_csv]
    exact ⟨by trivial, fun hc => absurd hc (by decide)⟩

/-- Witness for C2 amended: the scenario file completes, its counters
sum to total_rows = 3 and it owns 3 RowRecords. -/
theorem terminal_counts_invariant_witness :
    ((process_single_csv scenarioFile).record.status = "completed" ∨
     (process_single_csv scenarioFile).record.status = "failed") ∧
    ((process_single_csv scenarioFile).record.total_rows =
      (process_single_csv scenarioFile).record.successful_rows +
        (process_single_csv scenarioFile).record.failed_rows ∧
     ((process_single_csv scenarioFile).record.status = "completed" →
       (process_single_csv scenarioFile).rowRecords.length =
         (process_single_csv scenarioFile).record.total_rows)) :=
  ⟨Or.inl rfl, terminal_counts_invariant scenarioFile (Or.inl rfl)⟩

/-- C3 as frozen is false: the persisted message for a row with an empty
zip is the capitalized string `Missing zip code or email`, not the
claimed lowercase `missing zip code or email`. -/
theorem missing_data_message_counterexample :
    strip (dictGet missingZipRow "zip" "") = "" ∧
    (rowStep missingZipRow scenarioEnv).record.error_message =
      some "Missing zip code or email" ∧
    (rowStep missingZipRow scenarioEnv).record.error_message ≠
      some "missing zip code or email" := by
  decide

/-- C3 amended: for every row whose trimmed zip or trimmed email is
empty, the loop counts the row as failed, persists exactly one
RowRecord with success = false, error message `Missing zip code or
email` (capitalized in the code) and `N/A` substituted for each empty
field, makes no lookup call and sends no message, and continues to the
next row. -/
theorem missing_data_row (row : Row) (env : RowEnv) (rest : List (Row × RowEnv))
    (h : strip (dictGet row "zip" "") = "" ∨ strip (dictGet row "email" "") = "") :
    (rowStep row env).success = false ∧
    (rowStep row env).record.success = false ∧
    (rowStep row env).record.error_message = some "Missing zip code or email" ∧
    (rowStep row env).record.zip_code =
      (if strip (dictGet row "zip" "") = "" then "N/A"
       else strip (dictGet row "zip" "")) ∧
    (rowStep row env).record.email_address =
      (if strip (dictGet row "email" "") = "" then "N/A"
       else strip (dictGet row "email" "")) ∧
    (rowStep row env).sent = [] ∧
    (rowStep row env).lookups = 0 ∧
    processRows ((row, env) :: rest) =
      { total := 1 + (processRows rest).total,
        succ := (processRows rest).succ,
        failed := 1 + (processRows rest).failed,
        recs := (rowStep row env).record :: (processRows rest).recs,
        sent := (processRows rest).sent,
        lookups := (processRows rest).lookups } := by
  have hstep := rowStep_invalid row env h
  rw [hstep]
  refine ⟨rfl, rfl, rfl, rfl, rfl, rfl, rfl, ?_⟩
  simp [processRows, hstep]

/-- Witness for C3 amended: concrete evaluation at the row with an
empty zip, followed by one more row. -/
theorem missing_data_row_witness :
    (strip (dictGet missingZipRow "zip" "") = "" ∨
     strip (dictGet missingZipRow "email" "") = "") ∧
    ((rowStep missingZipRow scenarioEnv).success = false ∧
     (rowStep missingZipRow scenarioEnv).record.success = false ∧
     (rowStep missingZipRow scenarioEnv).record.error_message =
       some "Missing zip code or email" ∧
     (rowStep missingZipRow scenarioEnv).record.zip_code =
       (if strip (dictGet missingZipRow "zip" "") = "" then "N/A"
        else strip (dictGet missingZipRow "zip" "")) ∧
     (rowStep missingZipRow scenarioEnv).record.email_address =
       (if strip (dictGet missingZipRow "email" "") = "" then "N/A"
        else strip (dictGet missingZipRow "email" "")) ∧
     (rowStep missingZipRow scenarioEnv).sent = [] ∧
     (rowStep missingZipRow scenarioEnv).lookups = 0 ∧
     processRows ((missingZipRow, scenarioEnv) :: [(validRow90210, scenarioEnv)]) =
       { total := 1 + (processRows [(validRow90210, scenarioEnv)]).total,
         succ := (processRows [(validRow90210, scenarioEnv)]).succ,
         failed := 1 + (processRows [(validRow90210, scenarioEnv)]).failed,
         recs := (rowStep missingZipRow scenarioEnv).record ::
           (processRows [(validRow90210, scenarioEnv)]).recs,
         sent := (processRows [(validRow90210, scenarioEnv)]).sent,
         lookups := (processRows [(validRow90210, scenarioEnv)]).lookups }) :=
  ⟨Or.inl (by decide),
    missing_data_row missingZipRow scenarioEnv [(validRow90210, scenarioEnv)]
      (Or.inl (by decide))⟩


/-- C6: a file whose reading or row iteration raises gets its record set
to status failed and persisted, is not moved out of the input directory,
does not re-raise (the pass never aborts), and every other file of the
same pass is processed exactly as it would be alone. -/
theorem file_failure_isolated (files : List InputFile) (i : Nat)
    (rows : List (Row × RowEnv)) (msg : String)
    (h : (files.get? i).map InputFile.read = some (.errorAfter rows msg)) :
    (process_csv_files files).length = files.length ∧
    (∃ res, (process_csv_files files).get? i = some res ∧
      res.record.status = "failed" ∧ res.moved = false ∧ res.raised = false) ∧
    (∀ j, (process_csv_files files).get? j =
      (files.get? j).map process_single_csv) := by
  have hmap : ∀ j, (process_csv_files files).get? j =
      (files.get? j).map process_single_csv := by
    intro j
    simp [process_csv_files, List.getElem?_map]
  refine ⟨by simp [process_csv_files], ?_, hmap⟩
  cases hf : files.get? i with
  | none => rw [hf] at h; exact absurd h (by simp)
  | some f =>
    rw [hf] at h
    have hread : f.read = .errorAfter rows msg := by
      simpa using h
    refine ⟨process_single_csv f, by rw [hmap i, hf]; rfl, ?_, ?_, ?_⟩
    · obtain ⟨stem, ext, read⟩ := f
      simp only at hread
      subst hread
      rfl
    · obtain ⟨stem, ext, read⟩ := f
      simp only at hread
      subst hread
      rfl
    · obtain ⟨stem, ext, read⟩ := f
      simp only at hread
      subst hread
      rfl

/-- Witness for C6: a pass over a directory with a failing file and a
healthy file; the failing file is index 0. -/
theorem file_failure_isolated_witness :
    ((scenarioFiles.get? 0).map InputFile.read =
      some (.errorAfter [(validRow90210, scenarioEnv)] "invalid byte in line 3")) ∧
    ((process_csv_files scenarioFiles).length = scenarioFiles.length ∧
     (∃ res, (process_csv_files scenarioFiles).get? 0 = some res ∧
       res.record.status = "failed" ∧ res.moved = false ∧ res.raised = false) ∧
     (∀ j, (process_csv_files scenarioFiles).get? j =
       (scenarioFiles.get? j).map process_single_csv)) :=
  ⟨rfl, file_failure_isolated scenarioFiles 0
    [(validRow90210, scenarioEnv)] "invalid byte in line 3" rfl⟩

/-- C7: a row with both fields present whose lookup returns a 2xx JSON
response and whose send does not raise yields success: exactly one
message is sent, to that row address, and the one persisted RowRecord
has success = true and non-null region and locality. -/
theorem successful_row_sends_once (row : Row) (env : RowEnv)
    (data : ZipResponse) (rest : List (Row × RowEnv))
    (hzip : strip (dictGet row "zip" "") ≠ "")
    (hemail : strip (dictGet row "email" "") ≠ "")
    (hl : env.lookup = .ok data) (hs : env.sendError = none) :
    (rowStep row env).success = true ∧
    (rowStep row env).sent = [strip (dictGet row "email" "")] ∧
    (rowStep row env).record.success = true ∧
    (rowStep row env).record.state ≠ none ∧
    (rowStep row env).record.city ≠ none ∧
    (processRows ((row, env) :: rest)).recs =
      (rowStep row env).record :: (processRows rest).recs ∧
    (processRows ((row, env) :: rest)).sent =
      strip (dictGet row "email" "") :: (processRows rest).sent ∧
    (processRows ((row, env) :: rest)).succ = 1 + (processRows rest).succ := by
  have hstep := rowStep_valid row env hzip hemail
  obtain ⟨st, ct, hpr⟩ := process_row_success
    (strip (dictGet row "zip" "")) (strip (dictGet row "email" "")) env data hl hs
  rw [hstep, hpr]
  refine ⟨rfl, rfl, rfl, by simp, by simp, ?_, ?_, ?_⟩ <;>
    simp [processRows, hstep, hpr]

/-- Witness for C7: concrete evaluation at the valid 90210 row with a
successful lookup and send. -/
theorem successful_row_sends_once_witness :
    (strip (dictGet validRow90210 "zip" "") ≠ "" ∧
     strip (dictGet validRow90210 "email" "") ≠ "" ∧
     scenarioEnv.lookup = .ok scenarioData ∧
     scenarioEnv.sendError = none) ∧
    ((rowStep validRow90210 scenarioEnv).success = true ∧
     (rowStep validRow90210 scenarioEnv).sent =
       [strip (dictGet validRow90210 "email" "")] ∧
     (rowStep validRow90210 scenarioEnv).record.success = true ∧
     (rowStep validRow90210 scenarioEnv).record.state ≠ none ∧
     (rowStep validRow90210 scenarioEnv).record.city ≠ none ∧
     (processRows ((validRow90210, scenarioEnv) :: [])).recs =
       (rowStep validRow90210 scenarioEnv).record :: (processRows []).recs ∧
     (processRows ((validRow90210, scenarioEnv) :: [])).sent =
       strip (dictGet validRow90210 "email" "") :: (processRows []).sent ∧
     (processRows ((validRow90210, scenarioEnv) :: [])).succ =
       1 + (processRows []).succ) :=
  ⟨⟨by decide, by decide, rfl, rfl⟩,
    successful_row_sends_once validRow90210 scenarioEnv scenarioData []
      (by decide) (by decide) rfl rfl⟩

/-- C8: a row with both fields present whose lookup raises produces a
RowRecord with success = false whose error message embeds the cause
text, sends no message, and `process_row` returns failure to its caller
instead of raising (the embedding is a total function). -/
theorem lookup_failure_row (row : Row) (env : RowEnv) (detail : String)
    (hzip : strip (dictGet row "zip" "") ≠ "")
    (hemail : strip (dictGet row "email" "") ≠ "")
    (hl : env.lookup = .requestError detail) :
    (rowStep row env).success = false ∧
    (rowStep row env).record.success = false ∧
    (∃ pre post, (rowStep row env).record.error_message =
      some (pre ++ detail ++ post)) ∧
    (rowStep row env).sent = [] := by
  have hstep := rowStep_valid row env hzip hemail
  rw [hstep]
  unfold process_row
  rw [hl]
  simp only [get_location_from_zip]
  refine ⟨by trivial, by trivial, ?_, by trivial⟩
  refine ⟨"API error for ZIP " ++ strip (dictGet row "zip" "") ++ ": ", "", ?_⟩
  simp [String.append_empty]

/-- Witness for C8: concrete evaluation at the valid 90210 row with a
failing lookup. -/
theorem lookup_failure_row_witness :
    (strip (dictGet validRow90210 "zip" "") ≠ "" ∧
     strip (dictGet validRow90210 "email" "") ≠ "" ∧
     failEnv.lookup = .requestError "connection timed out") ∧
    ((rowStep validRow90210 failEnv).success = false ∧
     (rowStep validRow90210 failEnv).record.success = false ∧
     (∃ pre post, (rowStep validRow90210 failEnv).record.error_message =
       some (pre ++ "connection timed out" ++ post)) ∧
     (rowStep validRow90210 failEnv).sent = []) :=
  ⟨⟨by decide, by decide, rfl⟩,
    lookup_failure_row validRow90210 failEnv "connection timed out"
      (by decide) (by decide) rfl⟩


/-! Timestamp naming lemmas for the file mover. -/

theorem digitChar_isDigit_of_lt {d : Nat} (h : d < 10) :
    (Nat.digitChar d).isDigit = true := by
  interval_cases d <;> rfl

theorem digitChar_mod_ten_isDigit (n : Nat) :
    (Nat.digitChar (n % 10)).isDigit = true :=
  digitChar_isDigit_of_lt (Nat.mod_lt n (by decide))

theorem underscore_not_digit : Char.isDigit '_' = false := by decide

theorem strftimeTimestamp_toList (t : DateTime) :
    (strftimeTimestamp t).toList =
      [Nat.digitChar (t.year / 1000 % 10), Nat.digitChar (t.year / 100 % 10),
       Nat.digitChar (t.year / 10 % 10), Nat.digitChar (t.year % 10),
       Nat.digitChar (t.month / 10 % 10), Nat.digitChar (t.month % 10),
       Nat.digitChar (t.day / 10 % 10), Nat.digitChar (t.day % 10), '_',
       Nat.digitChar (t.hour / 10 % 10), Nat.digitChar (t.hour % 10),
       Nat.digitChar (t.minute / 10 % 10), Nat.digitChar (t.minute % 10),
       Nat.digitChar (t.second / 10 % 10), Nat.digitChar (t.second % 10)] := by
  simp [strftimeTimestamp, pad4, pad2, String.toList, String.data_append]

theorem strftimeTimestamp_shape (t : DateTime) :
    isTimestampShape (strftimeTimestamp t) = true := by
  unfold isTimestampShape
  rw [strftimeTimestamp_toList t]
  simp [digitChar_mod_ten_isDigit]

theorem strftimeTimestamp_digit_count (t : DateTime) :
    ((strftimeTimestamp t).toList.filter Char.isDigit).length = 14 := by
  rw [strftimeTimestamp_toList t]
  simp [List.filter, digitChar_mod_ten_isDigit, underscore_not_digit]

/-- C9: moving a successfully processed file removes it from the input
directory (names in a directory are distinct) and creates, in the
processed directory, a file named with the original stem, a timestamp in
format YYYYMMDD underscore HHMMSS between stem and extension, fifteen
characters of which fourteen are digits, and the original extension. -/
theorem move_renames_with_timestamp (stem ext : String) (t : DateTime)
    (d : Dirs) (hmem : (stem ++ ext) ∈ d.incoming) (hnd : d.incoming.Nodup) :
    (stem ++ ext) ∉ (move_to_processed stem ext t d).incoming ∧
    ∃ ts, (stem ++ "_" ++ ts ++ ext) ∈ (move_to_processed stem ext t d).processed ∧
      isTimestampShape ts = true ∧
      (ts.toList.filter Char.isDigit).length = 14 := by
  constructor
  · intro hin
    simp only [move_to_processed] at hin
    exact absurd ((hnd.mem_erase_iff).mp hin).1 (by simp)
  · exact ⟨strftimeTimestamp t, by simp [move_to_processed],
      strftimeTimestamp_shape t, strftimeTimestamp_digit_count t⟩

/-- Witness for C9: moving `input.csv` at 2024-01-15 09:30:00 out of a
directory that contains it. -/
theorem move_renames_with_timestamp_witness :
    (("input" ++ ".csv") ∈
        (Dirs.mk ["input.csv", "other.csv"] []).incoming ∧
     (Dirs.mk ["input.csv", "other.csv"] []).incoming.Nodup) ∧
    (("input" ++ ".csv") ∉
      (move_to_processed "input" ".csv" (DateTime.mk 2024 1 15 9 30 0)
        (Dirs.mk ["input.csv", "other.csv"] [])).incoming ∧
     ∃ ts, ("input" ++ "_" ++ ts ++ ".csv") ∈
         (move_to_processed "input" ".csv" (DateTime.mk 2024 1 15 9 30 0)
           (Dirs.mk ["input.csv", "other.csv"] [])).processed ∧
       isTimestampShape ts = true ∧
       (ts.toList.filter Char.isDigit).length = 14) :=
  ⟨⟨by decide, by decide⟩,
    move_renames_with_timestamp "input" ".csv" (DateTime.mk 2024 1 15 9 30 0)
      (Dirs.mk ["input.csv", "other.csv"] []) (by decide) (by decide)⟩

/-! Header-driven parsing theorems. -/

/-- C10 as frozen is false of the program: under the header `name,email`
(no `zip` column) a short data row leaves the `email` cell filled with
the None restval, so the extraction `row.get('email', '').strip()`
raises AttributeError at the file level, and the file ends with status
failed, is not moved, and owns no RowRecord, instead of completing. -/
theorem missing_header_column_counterexample :
    "zip" ∉ ["name", "email"] ∧
    (process_single_csv shortRowFile).record.status = "failed" ∧
    (process_single_csv shortRowFile).record.status ≠ "completed" ∧
    (process_single_csv shortRowFile).moved = false ∧
    (process_single_csv shortRowFile).rowRecords = [] := by
  decide

/-- C10 amended: a file whose header lacks the `zip` column, the
`email` column, or both, and in which no non-blank data row leaves the
zip or email cell None-filled (in particular whenever no data row is
shorter than the header), raises no file-level error: every data row
takes the missing-data branch, the record completes with failed_rows
equal to the row count, the file is moved, and each RowRecord carries
success = false with `N/A` for each column the header lacks. A row
short enough to None-fill the zip or email cell instead raises at
extraction and the file ends failed and unmoved. -/
theorem missing_header_column (f : InputFile) (header : List String)
    (rowData : List (List String × RowEnv))
    (hread : f.read = parseCsv header rowData)
    (hcells : ∀ p ∈ rowData.filter (fun p => !p.1.isEmpty),
      stripsOk (dictOfRow header p.1) = true)
    (h : "zip" ∉ header ∨ "email" ∉ header) :
    (process_single_csv f).record.status = "completed" ∧
    (process_single_csv f).record.total_rows =
      (rowData.filter fun p => !p.1.isEmpty).length ∧
    (process_single_csv f).record.failed_rows =
      (rowData.filter fun p => !p.1.isEmpty).length ∧
    (process_single_csv f).record.successful_rows = 0 ∧
    (process_single_csv f).moved = true ∧
    (process_single_csv f).raised = false ∧
    (process_single_csv f).lookups = 0 ∧
    (process_single_csv f).sent = [] ∧
    ∀ r ∈ (process_single_csv f).rowRecords,
      r.success = false ∧
      r.error_message = some "Missing zip code or email" ∧
      ("zip" ∉ header → r.zip_code = "N/A") ∧
      ("email" ∉ header → r.email_address = "N/A") := by
  obtain ⟨stem, ext, read⟩ := f
  simp only at hread
  subst hread
  have hok : parseCsv header rowData =
      .ok (((rowData.filter fun p => !p.1.isEmpty).map
        fun p => (dictOfRow header p.1, p.2)).map fun q => (toRow q.1, q.2)) := by
    unfold parseCsv
    apply readDictRows_ok
    intro q hq
    obtain ⟨p, hp, rfl⟩ := List.mem_map.mp hq
    exact hcells p hp
  rw [hok]
  have hinv : ∀ p ∈ (((rowData.filter fun p => !p.1.isEmpty).map
        fun p => (dictOfRow header p.1, p.2)).map fun q => (toRow q.1, q.2)),
      strip (dictGet p.1 "zip" "") = "" ∨ strip (dictGet p.1 "email" "") = "" := by
    intro p hp
    obtain ⟨q, hq, rfl⟩ := List.mem_map.mp hp
    obtain ⟨w, hw, rfl⟩ := List.mem_map.mp hq
    rcases h with h | h
    · exact Or.inl (by rw [dictGet_parsed_not_mem header w.1 "zip" "" h]; rfl)
    · exact Or.inr (by rw [dictGet_parsed_not_mem header w.1 "email" "" h]; rfl)
  have hall := processRows_all_invalid _ hinv
  have htot := processRows_total (((rowData.filter fun p => !p.1.isEmpty).map
    fun p => (dictOfRow header p.1, p.2)).map fun q => (toRow q.1, q.2))
  obtain ⟨hsucc, hfail, hlook, hsent⟩ := hall
  simp only [process_single_csv]
  refine ⟨by trivial, ?_, ?_, ?_, by trivial, by trivial, ?_, ?_, ?_⟩
  · rw [htot, List.length_map, List.length_map]
  · rw [hfail, List.length_map, List.length_map]
  · exact hsucc
  · exact hlook
  · exact hsent
  · intro r hr
    obtain ⟨p, hp, hrp⟩ := processRows_recs_mem _ r hr
    obtain ⟨q, hq, rfl⟩ := List.mem_map.mp hp
    obtain ⟨w, hw, rfl⟩ := List.mem_map.mp hq
    rw [hrp, rowStep_invalid _ _ (hinv _ hp)]
    refine ⟨rfl, rfl, ?_, ?_⟩
    · intro hz
      rw [dictGet_parsed_not_mem header w.1 "zip" "" hz]
      rfl
    · intro he
      rw [dictGet_parsed_not_mem header w.1 "email" "" he]
      rfl

/-- Witness for C10 amended: the file `people.csv` parsed under the
header `name,email` (no `zip` column), with one full-length data row. -/
theorem missing_header_column_witness :
    (noZipHeaderFile.read = parseCsv ["name", "email"] noZipHeaderRows ∧
     (∀ p ∈ noZipHeaderRows.filter (fun p => !p.1.isEmpty),
       stripsOk (dictOfRow ["name", "email"] p.1) = true) ∧
     ("zip" ∉ ["name", "email"] ∨ "email" ∉ ["name", "email"])) ∧
    ((process_single_csv noZipHeaderFile).record.status = "completed" ∧
     (process_single_csv noZipHeaderFile).record.total_rows =
       (noZipHeaderRows.filter fun p => !p.1.isEmpty).length ∧
     (process_single_csv noZipHeaderFile).record.failed_rows =
       (noZipHeaderRows.filter fun p => !p.1.isEmpty).length ∧
     (process_single_csv noZipHeaderFile).record.successful_rows = 0 ∧
     (process_single_csv noZipHeaderFile).moved = true ∧
     (process_single_csv noZipHeaderFile).raised = false ∧
     (process_single_csv noZipHeaderFile).lookups = 0 ∧
     (process_single_csv noZipHeaderFile).sent = [] ∧
     ∀ r ∈ (process_single_csv noZipHeaderFile).rowRecords,
       r.success = false ∧
       r.error_message = some "Missing zip code or email" ∧
       ("zip" ∉ ["name", "email"] → r.zip_code = "N/A") ∧
       ("email" ∉ ["name", "email"] → r.email_address = "N/A")) :=
  ⟨⟨rfl, by decide, Or.inl (by decide)⟩,
    missing_header_column noZipHeaderFile ["name", "email"] noZipHeaderRows
      rfl (by decide) (Or.inl (by decide))⟩

end CsvProcessor
